import Mathlib

/-!
Verification development for the yandex-tank-api-client coroutine client
(src/yandex_tank_api_client/async.py).  The Python module is shallowly
embedded: status dictionaries become records of optional fields, exceptions
become an inductive error type threaded through Except, the blocking calls
to the remote API become environment parameters recording the outcome of
each call, and the coroutine loops become fuel- or list-driven recursion.
-/

namespace YTank

/-- One failure record of a status dictionary: keys stage and reason.
A missing key is none (reading a missing key with bracket access raises
KeyError, reading with .get gives the default). -/
structure Failure where
  stage : Option String := none
  reason : Option String := none
deriving DecidableEq, Repr

/-- The remote status dictionary, with the keys the module reads.  The
initial value of the wrapper field self.status is the empty dict, i.e. all
fields none.  Each field is an Option; none stands for the dict state the
code actually discriminates on for that key: for status, current_stage and
failures the key being absent (bracket access raises KeyError, .get yields
the default), for retcode the key holding the value None (the code tests
retcode with is-not-None and otherwise converts it with int), and for
stage_completed either, since it is only ever read through .get with
default False. -/
structure StatusRec where
  status : Option String := none
  current_stage : Option String := none
  stage_completed : Option Bool := none
  failures : Option (List Failure) := none
  retcode : Option Int := none
  test : Option String := none
deriving DecidableEq, Repr

/-- The empty status dictionary, the initial value of self.status. -/
def StatusRec.empty : StatusRec := {}

/-- The exceptions that cross the functions of the module: transport
errors (urllib2.URLError), API errors carrying the status field of the
error payload, tankapi.NothingDone, tankapi.RetryLater, TestFailed carrying
the whole status dictionary, RuntimeError, KeyError from bracket access on
a dict missing the key, UnboundLocalError from reading a never-assigned
local, OSError from os.makedirs, and TankLocked carrying the wait time. -/
inductive PyExc where
  | urlError
  | apiError (status : Option String)
  | nothingDone
  | retryLater
  | testFailed (st : StatusRec)
  | runtimeError (msg : String)
  | keyError
  | unboundLocalError
  | osError
  | tankLocked (waitTime : Nat)
deriving DecidableEq, Repr

/-- Whether an exception is a tankapi.APIError. -/
def PyExc.isAPIError : PyExc → Bool
  | .apiError _ => true
  | _ => false

/-- Whether an exception is a TestFailed. -/
def PyExc.isTestFailed : PyExc → Bool
  | .testFailed _ => true
  | _ => false

/-- Whether an exception is a TankLocked. -/
def PyExc.isTankLocked : PyExc → Bool
  | .tankLocked _ => true
  | _ => false

/-- The generator expression any(flr[stage] == lock for flr in failures)
of _has_completed line 460: bracket access on each record in turn, so a
record with no stage key raises KeyError unless an earlier record already
matched. -/
def anyLockFailure : List Failure → Except PyExc Bool
  | [] => .ok false
  | f :: rest =>
    match f.stage with
    | none => .error .keyError
    | some s => if s = "lock" then .ok true else anyLockFailure rest

/-- The guard of the lock-failure branch of _has_completed (lines 459-461):
evaluated only when failures is in the change set; bracket access on the
failures key, then the any(...) scan. -/
def lockFailureCheck (changes : List String) (st : StatusRec) : Except PyExc Bool :=
  if "failures" ∈ changes then
    match st.failures with
    | none => .error .keyError
    | some fl => anyLockFailure fl
  else .ok false

/-- The value returned by the final lines of _has_completed (487-495):
completed and target_stage is not None and target_stage == last_stage,
with last_stage defaulting to unknown and completed defaulting to False. -/
def fallthroughResult (st : StatusRec) (target : Option String) : Bool :=
  st.stage_completed.getD false && decide (target = some (st.current_stage.getD "unknown"))

/-- SessionWrapper._has_completed (lines 443-495).  Arguments are the
wrapper fields it reads (self.status_changes, self.status, self.finished)
and the target stage; the result is the returned bool or raised exception,
paired with the new value of self.finished (assigned True in the failed
and success branches, in the failed branch before the raise). -/
def has_completed (changes : List String) (st : StatusRec) (target : Option String)
    (finished : Bool) : Except PyExc Bool × Bool :=
  if "poll_error" ∈ changes then
    if st = StatusRec.empty then (.error .retryLater, finished)
    else
      match st.current_stage with
      | none => (.error .keyError, finished)
      | some cstage =>
        if cstage = "init" ∨ cstage = "lock" then (.error .retryLater, finished)
        else (.error (.runtimeError "Complete tank status poll failure"), finished)
  else
    match lockFailureCheck changes st with
    | .error e => (.error e, finished)
    | .ok true => (.error .retryLater, finished)
    | .ok false =>
      if "status" ∈ changes then
        match st.status with
        | none => (.error .keyError, finished)
        | some sv =>
          if sv = "failed" then (.error (.testFailed st), true)
          else if sv = "success" then (.ok true, true)
          else (.ok (fallthroughResult st target), finished)
      else (.ok (fallthroughResult st target), finished)

/-- The monitored-key comparison of _handle_status_update (lines 416-419):
for each of the four keys, .get on the new and the stored dict; a key whose
values differ joins the change set (built here as a list in iteration
order, queried by membership). -/
def monitoredChanges (prev s : StatusRec) : List String :=
  (if s.status ≠ prev.status then ["status"] else []) ++
  (if s.current_stage ≠ prev.current_stage then ["current_stage"] else []) ++
  (if s.stage_completed ≠ prev.stage_completed then ["stage_completed"] else []) ++
  (if s.failures ≠ prev.failures then ["failures"] else [])

/-- What one run of _handle_status_update leaves behind: the new
self.status_changes, the new self.status, whether the external callback
was invoked, and whether the condition was notified (change set
non-empty). -/
structure UpdateOut where
  changes : List String
  status : StatusRec
  callbackInvoked : Bool
  notified : Bool
deriving DecidableEq, Repr

/-- SessionWrapper._handle_status_update (lines 404-428).  A failed poll
(status None) makes the change set exactly the singleton poll_error and
keeps the stored status; otherwise the callback fires when the whole new
dict differs from the whole stored dict and a callback is registered, the
change set collects the monitored keys whose values differ, and the stored
status is replaced wholesale.  The condition is notified exactly when the
change set is non-empty. -/
def handle_status_update (prev : StatusRec) (polled : Option StatusRec)
    (hasCallback : Bool) : UpdateOut :=
  match polled with
  | none => ⟨["poll_error"], prev, false, true⟩
  | some s =>
    let cs := monitoredChanges prev s
    ⟨cs, s, decide (s ≠ prev) && hasCallback, decide (cs ≠ [])⟩

/-- SessionWrapper._get_status (lines 383-402), as a loop over the
remaining attempt count.  fetch i is the outcome of the i-th call to
session.get_status(); only urllib2.URLError is caught, any other exception
propagates; a failure on the last attempt returns None. -/
def get_status_loop (fetch : Nat → Except PyExc StatusRec) :
    Nat → Nat → Except PyExc (Option StatusRec)
  | _, 0 => .ok none
  | i, rem + 1 =>
    match fetch i with
    | .ok s => .ok (some s)
    | .error .urlError =>
      if rem = 0 then .ok none else get_status_loop fetch (i + 1) rem
    | .error e => .error e

/-- SessionWrapper._get_status with its default attempt count 6. -/
def get_status (fetch : Nat → Except PyExc StatusRec) (attempts : Nat) :
    Except PyExc (Option StatusRec) :=
  get_status_loop fetch 0 attempts

/-- The per-file download loop of _download_artifacts (lines 358-370) over
the artifacts that matched the download patterns: a URLError or APIError
for one file is caught and logged, any other exception propagates. -/
def downloadFilesLoop (dl : Nat → Except PyExc Unit) :
    List String → Nat → Except PyExc Unit
  | [], _ => .ok ()
  | _ :: rest, i =>
    match dl i with
    | .ok () => downloadFilesLoop dl rest (i + 1)
    | .error .urlError => downloadFilesLoop dl rest (i + 1)
    | .error (.apiError _) => downloadFilesLoop dl rest (i + 1)
    | .error e => .error e

/-- Environment of one _download_artifacts run: the outcome of
os.makedirs, of session.get_artifact_list(), the fnmatch.fnmatch oracle
(stdlib glob matching, outside the module), and the outcome of each
per-file session.download_artifact call. -/
structure ArtifactEnv where
  makedirs : Except PyExc Unit
  listing : Except PyExc (List String)
  fnmatchFn : String → String → Bool
  downloadFile : Nat → Except PyExc Unit

/-- SessionWrapper._download_artifacts (lines 333-370).  The local err is
bound only by the except-OSError-as-err branch, whose every path returns
before the listing; so when get_artifact_list raises tankapi.APIError the
handler at line 352 evaluates str(err) with err never assigned, and the
log call raises UnboundLocalError instead of absorbing the failure.
A URLError while listing is logged and absorbed; per-file errors are
absorbed by downloadFilesLoop. -/
def download_artifacts (env : ArtifactEnv) (artifactsBySession : Bool)
    (downloadList : List String) : Except PyExc Unit :=
  let listPart : Except PyExc Unit :=
    match env.listing with
    | .error (.apiError _) => .error .unboundLocalError
    | .error .urlError => .ok ()
    | .error e => .error e
    | .ok arts =>
      downloadFilesLoop env.downloadFile
        (arts.filter fun a => downloadList.any fun p => env.fnmatchFn a p) 0
  if artifactsBySession then
    match env.makedirs with
    | .ok () => listPart
    | .error .osError => .ok ()
    | .error e => .error e
  else listPart

/-- SessionWrapper._run_until_stage_completion (lines 430-441), driven by
the sequence of (status_changes, status) pairs the poll loop posts while
the caller is blocked on the condition.  The predicate is evaluated first
on the current pair (cs, st) with the current finished flag; on False the
next posted pair is consumed.  The result records the raised exception or
normal return together with the (changes, status, finished) triple current
at that moment; none means the observation list was exhausted with the
caller still waiting. -/
def run_until_stage_completion (target : Option String) :
    List (List String × StatusRec) → List String → StatusRec → Bool →
    Option (Except PyExc Unit × List String × StatusRec × Bool)
  | [], cs, st, fin =>
    match has_completed cs st target fin with
    | (.error e, fin2) => some (.error e, cs, st, fin2)
    | (.ok true, fin2) => some (.ok (), cs, st, fin2)
    | (.ok false, _) => none
  | (cs2, st2) :: rest, cs, st, fin =>
    match has_completed cs st target fin with
    | (.error e, fin2) => some (.error e, cs, st, fin2)
    | (.ok true, fin2) => some (.ok (), cs, st, fin2)
    | (.ok false, fin2) => run_until_stage_completion target rest cs2 st2 fin2

/-- Environment of one run_until_finish call: outcome of
session.set_breakpoint(unlock), the pairs posted during the postprocess
wait, the outcome of _download_artifacts, the outcome of
session.set_breakpoint(finished) (an APIError carries the status field of
its payload), and the pairs posted during the final wait. -/
structure RunEnv where
  setBpUnlock : Except PyExc Unit
  obs1 : List (List String × StatusRec)
  download : Except PyExc Unit
  setBpFinished : Except PyExc Unit
  obs2 : List (List String × StatusRec)

/-- The retcode half of the success test of run_until_finish (lines
248-249): self.status[retcode] is not None and int(retcode) is a member of
self.expected_codes. -/
def retcodeOK (st : StatusRec) (expected : List Int) : Bool :=
  match st.retcode with
  | some rc => expected.contains rc
  | none => false

/-- SessionWrapper.run_until_finish (lines 223-259).  NothingDone from the
first breakpoint is caught; the postprocess wait runs; inside the try
block the artifacts are downloaded, the finished breakpoint is set (an
APIError whose payload status is success or failed is swallowed, any other
APIError is re-raised into the outer handler), the final wait runs, and
the success test on status and retcode decides between a normal return and
the trailing raise TestFailed(self.status).  An APIError escaping the try
block is logged and falls through to that same raise.  The result pairs
the outcome with the final self.status and self.finished; none means some
wait never ended within its observations. -/
def run_until_finish (env : RunEnv) (cs0 : List String) (st0 : StatusRec)
    (fin0 : Bool) (expected : List Int) :
    Option (Except PyExc Unit × StatusRec × Bool) :=
  let bp1 : Except PyExc Unit :=
    match env.setBpUnlock with
    | .error .nothingDone => .ok ()
    | r => r
  match bp1 with
  | .error e => some (.error e, st0, fin0)
  | .ok _ =>
    match run_until_stage_completion (some "postprocess") env.obs1 cs0 st0 fin0 with
    | none => none
    | some (.error e, _, st1, fin1) => some (.error e, st1, fin1)
    | some (.ok _, cs1, st1, fin1) =>
      match env.download with
      | .error e =>
        if e.isAPIError then some (.error (.testFailed st1), st1, fin1)
        else some (.error e, st1, fin1)
      | .ok _ =>
        let bp2 : Except PyExc Unit :=
          match env.setBpFinished with
          | .error (.apiError s) =>
            if s.getD "--unknown--" = "success" ∨ s.getD "--unknown--" = "failed"
            then .ok ()
            else .error (.apiError s)
          | r => r
        match bp2 with
        | .error e =>
          if e.isAPIError then some (.error (.testFailed st1), st1, fin1)
          else some (.error e, st1, fin1)
        | .ok _ =>
          match run_until_stage_completion none env.obs2 cs1 st1 fin1 with
          | none => none
          | some (res2, _, st2, fin2) =>
            match res2 with
            | .error e =>
              if e.isAPIError then some (.error (.testFailed st2), st2, fin2)
              else some (.error e, st2, fin2)
            | .ok _ =>
              match st2.status with
              | none => some (.error .keyError, st2, fin2)
              | some sv =>
                if sv = "success" ∧ retcodeOK st2 expected then
                  some (.ok (), st2, fin2)
                else some (.error (.testFailed st2), st2, fin2)

/-- One round of the acquisition loop of prepare (lines 207-214): the for
loop over self.tanks.  attempt k is the outcome of the k-th _prepare_tank
call overall; a RetryLater advances to the next tank, a success returns,
any other exception propagates; none means every tank of the round raised
RetryLater. -/
def prepareRound (attempt : Nat → Except PyExc Unit) :
    Nat → Nat → Option (Except PyExc Unit)
  | _, 0 => none
  | base, n + 1 =>
    match attempt base with
    | .ok () => some (.ok ())
    | .error .retryLater => prepareRound attempt (base + 1) n
    | .error e => some (.error e)

/-- SessionWrapper.prepare (lines 199-221), as a fuel-driven loop over
rounds.  elapsed r is time.time() - start_time as measured after round r;
when a whole round raised only RetryLater and the elapsed time exceeds
start_timeout, TankLocked carrying that wait time is raised, else the loop
sleeps 5 seconds and restarts the tank list.  none means the fuel ran out
with the loop still running. -/
def prepare (numTanks : Nat) (attempt : Nat → Except PyExc Unit)
    (elapsed : Nat → Nat) (startTimeout : Nat) :
    Nat → Nat → Option (Except PyExc Unit)
  | _, 0 => none
  | r, fuel + 1 =>
    match prepareRound attempt (r * numTanks) numTanks with
    | some res => some res
    | none =>
      if elapsed r > startTimeout then some (.error (.tankLocked (elapsed r)))
      else prepare numTanks attempt elapsed startTimeout (r + 1) fuel

/-- The default acquisition deadline, params.get(start_timeout, 14400)
(line 179). -/
def defaultStartTimeout : Nat := 14400

/-- The retry loop of stop (lines 274-298): att i is the outcome of the
i-th session.stop() call; a NothingDone is logged and the loop repeats, a
URLError bumps the attempt counter and below five attempts sleeps and
repeats, at five it cancels the poll task and re-raises, any other
exception cancels the poll task and re-raises; a clean call breaks.  The
result carries the outcome, how many stop requests were issued and whether
the poll task was cancelled; none means the fuel ran out. -/
def stopLoop (att : Nat → Except PyExc Unit) :
    Nat → Nat → Nat → Nat → Option (Except PyExc Unit × Nat × Bool)
  | 0, _, _, _ => none
  | fuel + 1, i, n, reqs =>
    match att i with
    | .ok () => some (.ok (), reqs + 1, false)
    | .error .nothingDone => stopLoop att fuel (i + 1) n (reqs + 1)
    | .error .urlError =>
      if n + 1 < 5 then stopLoop att fuel (i + 1) (n + 1) (reqs + 1)
      else some (.error .urlError, reqs + 1, true)
    | .error e => some (.error e, reqs + 1, true)

/-- SessionWrapper.stop (lines 261-301).  With no session or with the
finished flag set it returns at once; otherwise it runs the retry loop and
on a clean break, when wait is true, calls run_until_finish (whose outcome
is the runResult parameter here).  The result carries the outcome, the
number of stop requests issued, whether the poll task was cancelled and
whether run_until_finish was entered. -/
def stop (hasSession : Bool) (finished : Bool) (att : Nat → Except PyExc Unit)
    (wait : Bool) (runResult : Except PyExc Unit) (fuel : Nat) :
    Option (Except PyExc Unit × Nat × Bool × Bool) :=
  if !hasSession then some (.ok (), 0, false, false)
  else if finished then some (.ok (), 0, false, false)
  else
    match stopLoop att fuel 0 0 0 with
    | none => none
    | some (.ok _, reqs, c) =>
      if wait then some (runResult, reqs, c, true)
      else some (.ok (), reqs, c, false)
    | some (.error e, reqs, c) => some (.error e, reqs, c, false)

/-- The mutable per-wrapper state the claims about invariants range over:
self.status, self.status_changes, self.finished, self.session (abstracted
to its identifier) and self.poll_loop_task (abstracted to whether it is
not None). -/
structure WState where
  status : StatusRec
  changes : List String
  finished : Bool
  session : Option Nat
  pollTask : Bool
deriving DecidableEq, Repr

/-- The state written by SessionWrapper.__init__ (lines 130-136): empty
status dict, empty change set, finished False, no session, no poll task. -/
def initState : WState := ⟨StatusRec.empty, [], false, none, false⟩

/-- The state mutations the module performs on a wrapper, each taken from
its source site.  pollUpdate is one _handle_status_update run (writes
status_changes and status, never finished); predicateEval is one
_has_completed evaluation (the only writer of finished); sessionOpen is
the successful tankapi.Session construction of _prepare_tank followed
without a suspension point by the guarded poll-task start (lines 313-324):
self.session is assigned and the poll task is started only when it was
None, so it is non-None afterwards in either case.  stop and the
destructor cancel the poll task without clearing the field and write no
other state. -/
inductive Step : WState → WState → Prop where
  | pollUpdate (w : WState) (polled : Option StatusRec) (cb : Bool) :
      Step w { w with
        status := (handle_status_update w.status polled cb).status,
        changes := (handle_status_update w.status polled cb).changes }
  | predicateEval (w : WState) (target : Option String) :
      Step w { w with
        finished := (has_completed w.changes w.status target w.finished).2 }
  | sessionOpen (w : WState) (sid : Nat) :
      Step w { w with session := some sid, pollTask := true }

/-- A state the wrapper can be in after any sequence of the module's
mutations from the freshly constructed state. -/
def Reachable (w : WState) : Prop :=
  Relation.ReflTransGen Step initState w

/-- A status snapshot reporting overall success together with a lock-stage
failure record, as a remote poll may deliver it. -/
def c3Status : StatusRec :=
  { status := some "success",
    failures := some [{ stage := some "lock", reason := some "busy" }] }

/-- A stored snapshot and a polled snapshot differing only in the retcode
key, a key that is not among the four monitored ones. -/
def c6Prev : StatusRec := { retcode := some 0 }

/-- The polled snapshot of the C6 counterexample. -/
def c6New : StatusRec := { retcode := some 1 }

/-- A wrapper state with the finished flag already set, as after a
terminal predicate evaluation. -/
def c9Start : WState := { initState with finished := true }

/-- A snapshot in which the postprocess stage has just completed, as
current when the postprocess wait of run_until_finish returns. -/
def postprocessSnapshot : StatusRec :=
  { current_stage := some "postprocess", stage_completed := some true }

/-- A terminal snapshot reporting success with return code 0. -/
def successSnapshot : StatusRec :=
  { status := some "success", retcode := some 0 }

/-- A benign run_until_finish environment whose final wait observes the
success snapshot. -/
def c1Env : RunEnv :=
  { setBpUnlock := .ok (), obs1 := [], download := .ok (),
    setBpFinished := .ok (), obs2 := [(["status"], successSnapshot)] }

/-- An artifact environment in which session.get_artifact_list raises
tankapi.APIError and everything else behaves. -/
def c7ArtEnv : ArtifactEnv :=
  { makedirs := .ok (), listing := .error (.apiError none),
    fnmatchFn := fun _ _ => false, downloadFile := fun _ => .ok () }

/-- A run_until_finish environment identical to the benign one except that
the artifact download is the run of _download_artifacts in the failing
artifact environment. -/
def c7RunEnv : RunEnv :=
  { setBpUnlock := .ok (), obs1 := [],
    download := download_artifacts c7ArtEnv false ["lunapark*"],
    setBpFinished := .ok (), obs2 := [(["status"], successSnapshot)] }

/-- Every branch of _has_completed either keeps self.finished or assigns
it True, so evaluating the predicate with finished already True leaves it
True. -/
theorem has_completed_finished_mono (cs : List String) (st : StatusRec)
    (target : Option String) : (has_completed cs st target true).2 = true := by
  unfold has_completed
  repeat' split
  all_goals rfl

/-- C4: when poll_error is in the change set, _has_completed raises
RetryLater exactly when the status dict is still empty or the current
stage is init or lock; in every other case it raises an exception that is
neither RetryLater nor TestFailed (a KeyError when the current_stage key
is missing, else the RuntimeError for a complete poll failure).  The
finished flag is left unchanged in all these cases. -/
theorem has_completed_poll_error_spec (cs : List String) (st : StatusRec)
    (target : Option String) (fin : Bool)
    (h : "poll_error" ∈ cs) :
    ((st = StatusRec.empty ∨ st.current_stage = some "init" ∨
        st.current_stage = some "lock") →
      has_completed cs st target fin = (.error .retryLater, fin)) ∧
    ((st ≠ StatusRec.empty ∧ st.current_stage ≠ some "init" ∧
        st.current_stage ≠ some "lock") →
      ∃ e, has_completed cs st target fin = (.error e, fin) ∧
        e ≠ PyExc.retryLater ∧ e.isTestFailed = false) := by
  constructor
  · intro hpre
    by_cases hst : st = StatusRec.empty
    · simp [has_completed, h, hst]
    · rcases hpre with hpre | hpre | hpre
      · exact absurd hpre hst
      · simp [has_completed, h, hst, hpre]
      · simp [has_completed, h, hst, hpre]
  · rintro ⟨h1, h2, h3⟩
    cases hc : st.current_stage with
    | none =>
      exact ⟨.keyError, by simp [has_completed, h, h1, hc], by decide, rfl⟩
    | some c =>
      have hcne : ¬(c = "init" ∨ c = "lock") := by
        rintro (rfl | rfl)
        · exact h2 hc
        · exact h3 hc
      exact ⟨.runtimeError "Complete tank status poll failure",
        by simp [has_completed, h, h1, hc, hcne], by decide, rfl⟩

/-- C3 counterexample: an evaluation with status in the change set and
status equal to success on which the predicate neither sets finished nor
returns completed: the lock-failure branch fires first and raises
RetryLater with finished left False, so the success rule is not
unconditional in the change set. -/
theorem has_completed_success_shadowed_cex :
    ("status" ∈ ["status", "failures"]) ∧
    c3Status.status = some "success" ∧
    has_completed ["status", "failures"] c3Status (some "prepare") false
      = (.error .retryLater, false) ∧
    ((Except.error PyExc.retryLater : Except PyExc Bool), false)
      ≠ ((Except.ok true : Except PyExc Bool), true) := by
  refine ⟨by simp, rfl, rfl, by simp⟩

/-- C3 (amended): provided poll_error is not in the change set and the
lock-failure check completes negatively, an evaluation with status in the
change set and status success marks the wrapper finished and returns
completed regardless of the target stage; and when additionally neither
the failed nor the success branch applies, the predicate returns exactly
stage_completed-with-default-False and the target stage being non-null and
equal to the current stage name (defaulted to unknown), with finished
unchanged. -/
theorem has_completed_branch_spec (cs : List String) (st : StatusRec)
    (target : Option String) (fin : Bool)
    (hpe : "poll_error" ∉ cs)
    (hlf : lockFailureCheck cs st = .ok false) :
    (("status" ∈ cs ∧ st.status = some "success") →
      has_completed cs st target fin = (.ok true, true)) ∧
    (("status" ∉ cs ∨
        (∃ v, st.status = some v ∧ v ≠ "failed" ∧ v ≠ "success")) →
      has_completed cs st target fin = (.ok (fallthroughResult st target), fin) ∧
      (fallthroughResult st target = true ↔
        st.stage_completed.getD false = true ∧
          target = some (st.current_stage.getD "unknown"))) := by
  constructor
  · rintro ⟨hs, hsv⟩
    simp [has_completed, hpe, hlf, hs, hsv]
  · intro hcase
    refine ⟨?_, ?_⟩
    · rcases hcase with hs | ⟨v, hv, hvf, hvs⟩
      · simp [has_completed, hpe, hlf, hs]
      · by_cases hs : "status" ∈ cs
        · simp [has_completed, hpe, hlf, hs, hv, hvf, hvs]
        · simp [has_completed, hpe, hlf, hs]
    · simp [fallthroughResult, Bool.and_eq_true, decide_eq_true_iff]

/-- When the first k attempts raise URLError and attempt k succeeds within
the attempt budget, the loop returns that snapshot. -/
theorem get_status_loop_first_success (fetch : Nat → Except PyExc StatusRec) :
    ∀ rem i k s, k < rem → fetch (i + k) = .ok s →
      (∀ j, j < k → fetch (i + j) = .error .urlError) →
      get_status_loop fetch i rem = .ok (some s) := by
  intro rem
  induction rem with
  | zero => intro i k s hk; omega
  | succ rem ih =>
    intro i k s hk hok hfail
    cases k with
    | zero =>
      simp only [Nat.add_zero] at hok
      unfold get_status_loop
      rw [hok]
    | succ k =>
      have h0 : fetch i = .error .urlError := by
        simpa using hfail 0 (Nat.succ_pos k)
      have hrem : rem ≠ 0 := by omega
      unfold get_status_loop
      rw [h0]
      simp only [hrem, if_false]
      refine ih (i + 1) k s (by omega) ?_ ?_
      · have : i + 1 + k = i + (k + 1) := by omega
        rw [this]; exact hok
      · intro j hj
        have : i + 1 + j = i + (j + 1) := by omega
        rw [this]; exact hfail (j + 1) (by omega)

/-- The loop reports None only when every attempt of the budget raised
URLError. -/
theorem get_status_loop_none (fetch : Nat → Except PyExc StatusRec) :
    ∀ rem i, get_status_loop fetch i rem = .ok none →
      ∀ j, j < rem → fetch (i + j) = .error .urlError := by
  intro rem
  induction rem with
  | zero => intro i _ j hj; omega
  | succ rem ih =>
    intro i h j hj
    unfold get_status_loop at h
    cases hfetch : fetch i with
    | ok s => rw [hfetch] at h; simp at h
    | error e =>
      rw [hfetch] at h
      cases e with
      | urlError =>
        by_cases hrem : rem = 0
        · have : j = 0 := by omega
          simpa [this] using hfetch
        · simp only [hrem, if_false] at h
          cases j with
          | zero => simpa using hfetch
          | succ j =>
            have : i + (j + 1) = i + 1 + j := by omega
            rw [this]
            exact ih (i + 1) h j (by omega)
      | apiError s => simp at h
      | nothingDone => simp at h
      | retryLater => simp at h
      | testFailed st => simp at h
      | runtimeError m => simp at h
      | keyError => simp at h
      | unboundLocalError => simp at h
      | osError => simp at h
      | tankLocked w => simp at h

/-- C5: with the default budget of six attempts, five transport failures
followed by a success make _get_status return the successful snapshot and
not the PollFailed marker None; None is returned only when all six
attempts raised URLError; and a success on any earlier attempt, after only
transport failures, is returned immediately. -/
theorem get_status_retry_spec (fetch : Nat → Except PyExc StatusRec) :
    ((∀ i, i < 5 → fetch i = .error .urlError) → ∀ s : StatusRec,
        fetch 5 = .ok s → get_status fetch 6 = .ok (some s)) ∧
    (get_status fetch 6 = .ok none → ∀ i, i < 6 → fetch i = .error .urlError) ∧
    (∀ k, k < 6 → ∀ s : StatusRec, fetch k = .ok s →
        (∀ i, i < k → fetch i = .error .urlError) →
        get_status fetch 6 = .ok (some s)) := by
  refine ⟨?_, ?_, ?_⟩
  · intro hfail s hok
    refine get_status_loop_first_success fetch 6 0 5 s (by omega) (by simpa using hok) ?_
    intro j hj; simpa using hfail j hj
  · intro h i hi
    simpa using get_status_loop_none fetch 6 0 h i hi
  · intro k hk s hok hfail
    refine get_status_loop_first_success fetch 6 0 k s hk (by simpa using hok) ?_
    intro j hj; simpa using hfail j hj

/-- C6 counterexample: a poll cycle in which no monitored field differs,
so the change set is empty, yet the registered callback is invoked,
because _handle_status_update fires the callback on whole-dict inequality
(line 414) and the dicts differ in the unmonitored retcode key. -/
theorem handle_status_update_unmonitored_cex :
    monitoredChanges c6Prev c6New = [] ∧
    (handle_status_update c6Prev (some c6New) true).changes = [] ∧
    (handle_status_update c6Prev (some c6New) true).callbackInvoked = true := by
  refine ⟨rfl, rfl, by decide⟩

/-- C6 (amended): the callback fires exactly when the whole polled dict
differs from the whole stored dict (in any key, monitored or not) and a
callback is registered, at most once per poll cycle; the change set is
empty exactly when no monitored field differs; a change in some monitored
field together with a registered callback does invoke it; and a failed
poll yields exactly the singleton poll_error change set with the stored
status kept and no callback invocation. -/
theorem handle_status_update_spec (prev s : StatusRec) (cb : Bool) :
    ((handle_status_update prev (some s) cb).callbackInvoked
        = (decide (s ≠ prev) && cb)) ∧
    ((handle_status_update prev (some s) cb).changes = monitoredChanges prev s) ∧
    (monitoredChanges prev s = [] ↔
      (s.status = prev.status ∧ s.current_stage = prev.current_stage ∧
        s.stage_completed = prev.stage_completed ∧ s.failures = prev.failures)) ∧
    (monitoredChanges prev s ≠ [] → cb = true →
      (handle_status_update prev (some s) cb).callbackInvoked = true) ∧
    (handle_status_update prev none cb = ⟨["poll_error"], prev, false, true⟩) := by
  refine ⟨rfl, rfl, ?_, ?_, rfl⟩
  · constructor
    · intro h
      by_contra hne
      push_neg at hne
      unfold monitoredChanges at h
      by_cases h1 : s.status = prev.status <;>
        by_cases h2 : s.current_stage = prev.current_stage <;>
          by_cases h3 : s.stage_completed = prev.stage_completed <;>
            by_cases h4 : s.failures = prev.failures <;>
              simp_all
    · rintro ⟨h1, h2, h3, h4⟩
      simp [monitoredChanges, h1, h2, h3, h4]
  · intro hne hcb
    have hsp : s ≠ prev := by
      intro h
      exact hne (by simp [monitoredChanges, h])
    simp [handle_status_update, hsp, hcb]

/-- A round over the tank list in which every _prepare_tank call raises
RetryLater completes without a result. -/
theorem prepareRound_all_retry (attempt : Nat → Except PyExc Unit)
    (h : ∀ k, attempt k = .error .retryLater) :
    ∀ n base, prepareRound attempt base n = none := by
  intro n
  induction n with
  | zero => intro base; rfl
  | succ n ih =>
    intro base
    unfold prepareRound
    rw [h base]
    exact ih (base + 1)

/-- C2: when every acquisition attempt raises RetryLater and the elapsed
clock exceeds the configured deadline within the fuel, the acquisition
loop raises TankLocked carrying a wait time above the deadline, an
exception that is a TankLocked and not a TestFailed. -/
theorem prepare_tank_locked (numTanks : Nat) (attempt : Nat → Except PyExc Unit)
    (elapsed : Nat → Nat) (startTimeout : Nat)
    (hall : ∀ k, attempt k = .error .retryLater) :
    ∀ fuel r, (∃ i, i < fuel ∧ elapsed (r + i) > startTimeout) →
      ∃ w, prepare numTanks attempt elapsed startTimeout r fuel
            = some (.error (.tankLocked w)) ∧ w > startTimeout ∧
          (PyExc.tankLocked w).isTankLocked = true ∧
          (PyExc.tankLocked w).isTestFailed = false := by
  intro fuel
  induction fuel with
  | zero => rintro r ⟨i, hi, _⟩; omega
  | succ fuel ih =>
    rintro r ⟨i, hi, hgt⟩
    unfold prepare
    rw [prepareRound_all_retry attempt hall]
    by_cases h0 : elapsed r > startTimeout
    · exact ⟨elapsed r, by simp [h0], h0, rfl, rfl⟩
    · have hi0 : i ≠ 0 := by
        rintro rfl
        simp only [Nat.add_zero] at hgt
        exact h0 hgt
      obtain ⟨j, rfl⟩ : ∃ j, i = j + 1 := ⟨i - 1, by omega⟩
      simp only [h0, if_false]
      refine ih (r + 1) ⟨j, by omega, ?_⟩
      have : r + 1 + j = r + (j + 1) := by omega
      rw [this]; exact hgt

/-- C8: stop on a wrapper with no session ever acquired, and stop on a
wrapper whose finished flag is true, return at once: no stop request is
issued, the poll task is not cancelled and run_until_finish is not
entered, whatever the attempt outcomes, the wait flag and the fuel. -/
theorem stop_idempotent (finished : Bool) (att : Nat → Except PyExc Unit)
    (wait : Bool) (runResult : Except PyExc Unit) (fuel : Nat) :
    stop false finished att wait runResult fuel = some (.ok (), 0, false, false) ∧
    stop true true att wait runResult fuel = some (.ok (), 0, false, false) := by
  exact ⟨rfl, rfl⟩

/-- No single state mutation of the module resets a finished flag that is
already true: status updates and session opens do not write it and the
predicate only ever assigns True. -/
theorem step_finished_mono {w w' : WState} (h : Step w w') :
    w.finished = true → w'.finished = true := by
  cases h with
  | pollUpdate polled cb => intro hf; simpa using hf
  | predicateEval target =>
    intro hf
    show (has_completed w.changes w.status target w.finished).2 = true
    rw [hf]
    exact has_completed_finished_mono w.changes w.status target
  | sessionOpen sid => intro hf; simpa using hf

/-- C9: along every sequence of the module's state mutations (the poll
loop's status updates, every predicate evaluation issued by prepare,
run_until_finish or stop, and session opens), once the finished flag is
true it stays true. -/
theorem finished_never_reset {w w' : WState}
    (h : Relation.ReflTransGen Step w w') (hf : w.finished = true) :
    w'.finished = true := by
  induction h with
  | refl => exact hf
  | tail _ hstep ih => exact step_finished_mono hstep ih

/-- C9 witness: a concrete poll update applied to a finished wrapper
leaves the flag true. -/
theorem finished_never_reset_witness :
    ({ c9Start with
        status := (handle_status_update c9Start.status none false).status,
        changes := (handle_status_update c9Start.status none false).changes }
      : WState).finished = true :=
  finished_never_reset
    (Relation.ReflTransGen.single (Step.pollUpdate c9Start none false)) rfl

/-- Each single state mutation preserves the session-implies-poll-task
invariant: updates and predicate evaluations touch neither field, and a
session open assigns the session and guarantees the poll task is running
(starting it when it was None). -/
theorem step_poll_task_inv {w w' : WState} (h : Step w w')
    (hw : w.session.isSome = true → w.pollTask = true) :
    w'.session.isSome = true → w'.pollTask = true := by
  cases h with
  | pollUpdate polled cb => intro hs; exact hw (by simpa using hs)
  | predicateEval target => intro hs; exact hw (by simpa using hs)
  | sessionOpen sid => intro _; rfl

/-- C10: in every reachable wrapper state, a non-null session handle comes
with a non-null background poll-loop task, so the task-cancellation paths
of stop, which run only with a session present, never dereference a null
poll-loop task. -/
theorem poll_task_invariant (w : WState) (h : Reachable w) :
    w.session.isSome = true → w.pollTask = true := by
  unfold Reachable at h
  induction h with
  | refl => intro hs; simp [initState] at hs
  | tail _ hstep ih => exact step_poll_task_inv hstep ih

/-- C10 witness: the state reached by a concrete session open has the poll
task running. -/
theorem poll_task_invariant_witness :
    ({ initState with session := some 0, pollTask := true } : WState).pollTask
      = true :=
  poll_task_invariant _
    (Relation.ReflTransGen.single (Step.sessionOpen initState 0)) rfl

/-- With no target stage, the predicate returns True only through its
success branch: the fallthrough value is False when target_stage is None,
so an .ok true outcome forces status success and finished True. -/
theorem has_completed_ok_true_none (cs : List String) (st : StatusRec)
    (fin f2 : Bool) (h : has_completed cs st none fin = (.ok true, f2)) :
    st.status = some "success" ∧ f2 = true := by
  unfold has_completed at h
  by_cases hpe : "poll_error" ∈ cs
  · simp only [hpe, if_true] at h
    by_cases hst : st = StatusRec.empty
    · simp [hst] at h
    · simp only [hst, if_false] at h
      cases hc : st.current_stage with
      | none => rw [hc] at h; simp at h
      | some c =>
        rw [hc] at h
        by_cases hcc : c = "init" ∨ c = "lock" <;> simp [hcc] at h
  · simp only [hpe, if_false] at h
    cases hlf : lockFailureCheck cs st with
    | error e => rw [hlf] at h; simp at h
    | ok b =>
      rw [hlf] at h
      cases b with
      | true => simp at h
      | false =>
        by_cases hs : "status" ∈ cs
        · simp only [hs, if_true] at h
          cases hsv : st.status with
          | none => rw [hsv] at h; simp at h
          | some sv =>
            rw [hsv] at h
            by_cases hf : sv = "failed"
            · simp [hf] at h
            · by_cases hsu : sv = "success"
              · refine ⟨by rw [hsu], ?_⟩
                cases f2
                · exfalso; simp [hf, hsu] at h
                · rfl
              · exfalso
                simp [hf, hsu, fallthroughResult] at h
        · exfalso
          simp only [hs, if_false, Prod.mk.injEq, Except.ok.injEq] at h
          have := h.1
          simp [fallthroughResult] at this

/-- The any(...) scan over failure records can only fail with KeyError. -/
theorem anyLockFailure_error (fl : List Failure) (e : PyExc)
    (h : anyLockFailure fl = .error e) : e = .keyError := by
  induction fl with
  | nil => simp [anyLockFailure] at h
  | cons f rest ih =>
    unfold anyLockFailure at h
    cases hf : f.stage with
    | none =>
      rw [hf] at h
      simp only [Except.error.injEq] at h
      exact h.symm
    | some sv =>
      rw [hf] at h
      by_cases hs : sv = "lock"
      · simp [hs] at h
      · simp only [hs, if_false] at h
        exact ih h

/-- The lock-failure guard can only fail with KeyError. -/
theorem lockFailureCheck_error (cs : List String) (st : StatusRec) (e : PyExc)
    (h : lockFailureCheck cs st = .error e) : e = .keyError := by
  unfold lockFailureCheck at h
  by_cases hfs : "failures" ∈ cs
  · simp only [hfs, if_true] at h
    cases hfl : st.failures with
    | none =>
      rw [hfl] at h
      simp only [Except.error.injEq] at h
      exact h.symm
    | some fl =>
      rw [hfl] at h
      exact anyLockFailure_error fl e h
  · simp [hfs] at h

/-- TestFailed is raised by the predicate only in its failed branch, with
the current status dict as payload. -/
theorem has_completed_testFailed (cs : List String) (st : StatusRec)
    (target : Option String) (fin f2 : Bool) (s : StatusRec)
    (h : has_completed cs st target fin = (.error (.testFailed s), f2)) :
    s = st ∧ st.status = some "failed" := by
  unfold has_completed at h
  by_cases hpe : "poll_error" ∈ cs
  · simp only [hpe, if_true] at h
    by_cases hst : st = StatusRec.empty
    · simp [hst] at h
    · simp only [hst, if_false] at h
      cases hc : st.current_stage with
      | none => rw [hc] at h; simp at h
      | some c =>
        rw [hc] at h
        by_cases hcc : c = "init" ∨ c = "lock" <;> simp [hcc] at h
  · simp only [hpe, if_false] at h
    cases hlf : lockFailureCheck cs st with
    | error e =>
      rw [hlf] at h
      simp only [Prod.mk.injEq, Except.error.injEq] at h
      have := lockFailureCheck_error cs st e hlf
      rw [this] at h
      simp at h
    | ok b =>
      rw [hlf] at h
      cases b with
      | true => simp at h
      | false =>
        by_cases hs : "status" ∈ cs
        · simp only [hs, if_true] at h
          cases hsv : st.status with
          | none => rw [hsv] at h; simp at h
          | some sv =>
            rw [hsv] at h
            by_cases hf : sv = "failed"
            · simp only [hf, if_true, Prod.mk.injEq, Except.error.injEq,
                PyExc.testFailed.injEq] at h
              exact ⟨h.1.symm, by rw [hf]⟩
            · by_cases hsu : sv = "success" <;> simp [hf, hsu] at h
        · simp [hs] at h

/-- A wait with no target stage that ends does so either on a success
snapshot (normal return) or by raising TestFailed carrying the very
snapshot current at that moment, which then reports status failed. -/
theorem run_wait_none_terminal (obs : List (List String × StatusRec)) :
    ∀ cs st fin res cs2 st2 fin2,
      run_until_stage_completion none obs cs st fin
          = some (res, cs2, st2, fin2) →
      (res = .ok () → st2.status = some "success") ∧
      (∀ s, res = .error (.testFailed s) → s = st2 ∧ st2.status = some "failed") := by
  induction obs with
  | nil =>
    intro cs st fin res cs2 st2 fin2 h
    unfold run_until_stage_completion at h
    rcases hc : has_completed cs st none fin with ⟨r, f2⟩
    rw [hc] at h
    cases r with
    | ok b =>
      cases b with
      | true =>
        simp only [Option.some.injEq, Prod.mk.injEq] at h
        obtain ⟨hres, _, hst2, _⟩ := h
        constructor
        · intro _
          rw [← hst2]
          exact (has_completed_ok_true_none cs st fin f2 hc).1
        · intro s hs; rw [← hres] at hs; simp at hs
      | false => simp at h
    | error e =>
      simp only [Option.some.injEq, Prod.mk.injEq] at h
      obtain ⟨hres, _, hst2, _⟩ := h
      constructor
      · intro hok; rw [← hres] at hok; simp at hok
      · intro s hs
        rw [← hres] at hs
        simp only [Except.error.injEq] at hs
        rw [← hst2]
        exact has_completed_testFailed cs st none fin f2 s (by rw [hc, hs])
  | cons head rest ih =>
    obtain ⟨csN, stN⟩ := head
    intro cs st fin res cs2 st2 fin2 h
    unfold run_until_stage_completion at h
    rcases hc : has_completed cs st none fin with ⟨r, f2⟩
    rw [hc] at h
    cases r with
    | ok b =>
      cases b with
      | true =>
        simp only [Option.some.injEq, Prod.mk.injEq] at h
        obtain ⟨hres, _, hst2, _⟩ := h
        constructor
        · intro _
          rw [← hst2]
          exact (has_completed_ok_true_none cs st fin f2 hc).1
        · intro s hs; rw [← hres] at hs; simp at hs
      | false => exact ih csN stN f2 res cs2 st2 fin2 h
    | error e =>
      simp only [Option.some.injEq, Prod.mk.injEq] at h
      obtain ⟨hres, _, hst2, _⟩ := h
      constructor
      · intro hok; rw [← hres] at hok; simp at hok
      · intro s hs
        rw [← hres] at hs
        simp only [Except.error.injEq] at hs
        rw [← hst2]
        exact has_completed_testFailed cs st none fin f2 s (by rw [hc, hs])

/-- C1: for every terminal poll outcome observed in the wait after the
postprocess wait (the pre-steps being benign: the unlock breakpoint
succeeding or reporting NothingDone, the artifact download returning, the
finished breakpoint succeeding or rejected with a payload status of
success or failed), run_until_finish returns normally exactly when the
terminal status is success with a return code among the expected codes;
every other terminal outcome (terminal failed, or success with a missing
or unexpected return code) raises TestFailed carrying the final status
snapshot itself, hence the remote-reported failure records verbatim. -/
theorem run_until_finish_terminal (env : RunEnv) (cs0 cs1 cs2 : List String)
    (st0 st1 st2 : StatusRec) (fin0 fin1 fin2 : Bool) (expected : List Int)
    (res2 : Except PyExc Unit)
    (hbp1 : env.setBpUnlock = .ok () ∨ env.setBpUnlock = .error .nothingDone)
    (hw1 : run_until_stage_completion (some "postprocess") env.obs1 cs0 st0 fin0
            = some (.ok (), cs1, st1, fin1))
    (hdl : env.download = .ok ())
    (hbp2 : env.setBpFinished = .ok () ∨
      ∃ s, env.setBpFinished = .error (.apiError s) ∧
        (s.getD "--unknown--" = "success" ∨ s.getD "--unknown--" = "failed"))
    (hw2 : run_until_stage_completion none env.obs2 cs1 st1 fin1
            = some (res2, cs2, st2, fin2))
    (hterm : res2 = .ok () ∨ ∃ s, res2 = .error (.testFailed s)) :
    ∃ r, run_until_finish env cs0 st0 fin0 expected = some (r, st2, fin2) ∧
      ((r = Except.ok ()) ↔
        (st2.status = some "success" ∧ retcodeOK st2 expected = true)) ∧
      (¬(st2.status = some "success" ∧ retcodeOK st2 expected = true) →
        r = .error (.testFailed st2)) := by
  have hterm2 := run_wait_none_terminal env.obs2 cs1 st1 fin1 res2 cs2 st2 fin2 hw2
  have hbp1' : (match env.setBpUnlock with
      | .error .nothingDone => (Except.ok () : Except PyExc Unit)
      | r => r) = Except.ok () := by
    rcases hbp1 with h | h <;> rw [h]
  have hbp2' : (match env.setBpFinished with
      | .error (.apiError s) =>
        if s.getD "--unknown--" = "success" ∨ s.getD "--unknown--" = "failed"
        then (Except.ok () : Except PyExc Unit)
        else .error (.apiError s)
      | r => r) = Except.ok () := by
    rcases hbp2 with h | ⟨s, h, hcond⟩
    · rw [h]
    · rw [h]
      simp only [if_pos hcond]
  simp only [run_until_finish, hbp1', hw1, hdl, hbp2', hw2]
  rcases hterm with hres | ⟨s, hres⟩
  · subst hres
    have hs2 : st2.status = some "success" := hterm2.1 rfl
    rw [hs2]
    by_cases hrc : retcodeOK st2 expected = true
    · refine ⟨Except.ok (), ?_, ?_, ?_⟩
      · simp [hrc]
      · simp [hs2, hrc]
      · intro hcon; exact absurd ⟨rfl, hrc⟩ hcon
    · refine ⟨.error (.testFailed st2), ?_, ?_, ?_⟩
      · simp [hrc]
      · simp [hrc]
      · intro _; rfl
  · subst hres
    obtain ⟨hst2, hfailed⟩ := hterm2.2 s rfl
    subst hst2
    refine ⟨.error (.testFailed s), ?_, ?_, ?_⟩
    · simp [PyExc.isAPIError]
    · simp [hfailed]
    · intro _; rfl

/-- C7: evaluation of the code at the failing input.  When
get_artifact_list raises tankapi.APIError, _download_artifacts does not
absorb the error: its handler evaluates str(err) with the local err never
assigned (line 352) and raises UnboundLocalError, which is neither an
APIError nor a TestFailed, so run_until_finish, whose try block catches
only tankapi.APIError, propagates it and a session that would have
reported success raises instead of returning normally. -/
theorem download_artifacts_listing_api_error_bug :
    download_artifacts c7ArtEnv false ["lunapark*"]
      = .error .unboundLocalError ∧
    PyExc.unboundLocalError.isAPIError = false ∧
    PyExc.unboundLocalError.isTestFailed = false ∧
    run_until_finish c7RunEnv [] postprocessSnapshot false [0]
      = some (.error .unboundLocalError, postprocessSnapshot, false) :=
  ⟨rfl, rfl, rfl, rfl⟩

/-- C1 witness: a concrete benign run whose final wait observes terminal
success with return code 0 against expected codes containing 0. -/
theorem run_until_finish_terminal_witness :
    ∃ r, run_until_finish c1Env [] postprocessSnapshot false [0]
          = some (r, successSnapshot, true) ∧
      ((r = Except.ok ()) ↔
        (successSnapshot.status = some "success" ∧
          retcodeOK successSnapshot [0] = true)) ∧
      (¬(successSnapshot.status = some "success" ∧
          retcodeOK successSnapshot [0] = true) →
        r = .error (.testFailed successSnapshot)) :=
  run_until_finish_terminal c1Env [] [] ["status"] postprocessSnapshot
    postprocessSnapshot successSnapshot false false true [0] (Except.ok ())
    (Or.inl rfl) rfl rfl (Or.inl rfl) rfl (Or.inl rfl)

/-- C2 witness: two tanks that always raise RetryLater and a clock already
past the default four-hour deadline make the first round raise
TankLocked. -/
theorem prepare_tank_locked_witness :
    ∃ w, prepare 2 (fun _ => .error .retryLater) (fun _ => 14401)
          defaultStartTimeout 0 1 = some (.error (.tankLocked w)) ∧
        w > defaultStartTimeout ∧
        (PyExc.tankLocked w).isTankLocked = true ∧
        (PyExc.tankLocked w).isTestFailed = false :=
  prepare_tank_locked 2 (fun _ => .error .retryLater) (fun _ => 14401)
    defaultStartTimeout (fun _ => rfl) 1 0
    ⟨0, Nat.zero_lt_one, by norm_num [defaultStartTimeout]⟩

/-- C3 witness: with only the status key changed and a success snapshot,
the amended rule yields completed and finished. -/
theorem has_completed_branch_spec_witness :
    has_completed ["status"] successSnapshot none false
      = (.ok true, true) :=
  (has_completed_branch_spec ["status"] successSnapshot none false
    (by simp) rfl).1 ⟨by simp, rfl⟩

/-- C4 witness: a poll failure before any status was stored raises
RetryLater. -/
theorem has_completed_poll_error_spec_witness :
    has_completed ["poll_error"] StatusRec.empty none false
      = (.error .retryLater, false) :=
  (has_completed_poll_error_spec ["poll_error"] StatusRec.empty none false
    (by simp)).1 (Or.inl rfl)

end YTank
